import Mathlib

/-!
Verification of the upstream synchronization engine of the `mechmania/cli`
tool (`src/update.rs`, plus the language table of `src/main.rs` and
`src/config.rs`).

The external version-control tool is modelled by a `Runner`: a scripted map
from process invocations (program, argument list, working directory) to
outcomes (spawn failure, or completion with an exit-status flag plus captured
output streams).  Each Rust function that shells out is embedded as a pure
Lean function of the runner, returning both the ordered list of invocations
it issued (its trace) and its `Except` result, mirroring the control flow of
the source line by line.
-/

set_option autoImplicit false

namespace MMCli

/-- The `Lang` enum of `src/config.rs`. -/
inductive Lang where
  | rust
  | python
  | java
deriving DecidableEq, Repr

/-- The `Config` struct of `src/config.rs` (fields `language`, `api_url`). -/
structure Config where
  language : Lang
  api_url : String
deriving DecidableEq, Repr

/-- `strategy_path` of `src/main.rs` (lines 80-86): the protected strategy
subtree, keyed on the configured language. -/
def strategy_path (config : Config) : String :=
  match config.language with
  | .rust => "src/strategy"
  | .python => "strategy"
  | .java => "src/com/bot/strategy"

/-- `get_starterpack_url` of `src/update.rs` (lines 214-221). -/
def get_starterpack_url (config : Config) : String :=
  match config.language with
  | .rust => "https://github.com/mechmania/rust-starterpack"
  | .python => "https://github.com/mechmania/python-starterpack"
  | .java => "https://github.com/mechmania/java-starterpack"

/-- `CLI_REPO_URL` of `src/update.rs` (line 6). -/
def CLI_REPO_URL : String := "https://github.com/mechmania/cli"

/-- One external process invocation: program name, argument list, and the
working directory passed via `current_dir` (if any). -/
structure Invocation where
  program : String
  args : List String
  cwd : Option String
deriving DecidableEq, Repr

/-- What `Command::output()` captures on completion: `status.success()`,
stdout and stderr (stdout modelled as a `String`; the lossless
`String::from_utf8` step of the source cannot fail on this model and its
error branch is noted where it occurs). -/
structure ExecOutput where
  success : Bool
  stdout : String
  stderr : String
deriving DecidableEq, Repr

/-- Outcome of asking the OS to run an invocation: either the process could
not be started (the `.await` returns `Err(io::Error)`) or it ran to
completion with captured output. -/
inductive SpawnResult where
  | spawnError (msg : String)
  | completed (out : ExecOutput)
deriving DecidableEq, Repr

/-- A scripted external world: the response every invocation would get.
Two identical invocations receive identical responses, which models a world
whose remotes and repository do not change during the run. -/
def Runner : Type := Invocation → SpawnResult

/-- The error taxonomy produced by `src/update.rs`:
`spawn` for a process that could not be started (`?` / `.context` on the
spawn future), `bailMsg` for a `bail!` carrying a message plus the tool's
captured stderr text, `parse` for output of unexpected shape. -/
inductive CliError where
  | spawn (msg : String)
  | bailMsg (msg : String) (stderrText : String)
  | parse (msg : String)
deriving DecidableEq, Repr

/-- Result of running one embedded function: the ordered invocations it
issued (including a final failing one) and its `Result` value. -/
structure RunResult (α : Type) where
  trace : List Invocation
  result : Except CliError α

/-- A step "reported success": the process started and exited zero. -/
def stepOk (run : Runner) (i : Invocation) : Bool :=
  match run i with
  | .completed o => o.success
  | .spawnError _ => false

/-! ### The concrete invocations issued by `src/update.rs` -/

/-- `git remote add upstream <url>` (`add_upstream_remote`, lines 206-209). -/
def remoteAddInv (root : String) (config : Config) : Invocation :=
  ⟨"git", ["remote", "add", "upstream", get_starterpack_url config], some root⟩

/-- `git fetch upstream main` (`has_upstream_changes`, lines 96-99). -/
def fetchInv (root : String) : Invocation :=
  ⟨"git", ["fetch", "upstream", "main"], some root⟩

/-- `git rev-list --count HEAD..upstream/main` (lines 107-110). -/
def revListInv (root : String) : Invocation :=
  ⟨"git", ["rev-list", "--count", "HEAD..upstream/main"], some root⟩

/-- `git ls-remote <CLI_REPO_URL> HEAD` (`get_remote_cli_hash`, lines 51-54),
run without `current_dir`. -/
def lsRemoteInv : Invocation :=
  ⟨"git", ["ls-remote", CLI_REPO_URL, "HEAD"], none⟩

/-- `cargo install --git <CLI_REPO_URL>` (`update_cli`, lines 73-81). -/
def cargoInstallInv : Invocation :=
  ⟨"cargo", ["install", "--git", CLI_REPO_URL], none⟩

/-- `git restore --source=upstream/main -- . :!<sp> :!<sp>/**`
(`update_starterpack`, lines 133-144): selective restore excluding the
strategy subtree. -/
def restoreInv (root sp : String) : Invocation :=
  ⟨"git", ["restore", "--source=upstream/main", "--", ".",
           ":!" ++ sp, ":!" ++ sp ++ "/**"], some root⟩

/-- `git stash` (lines 154-160). -/
def stashInv (root : String) : Invocation :=
  ⟨"git", ["stash"], some root⟩

/-- `git rebase upstream/main` (lines 169-176). -/
def rebaseInv (root : String) : Invocation :=
  ⟨"git", ["rebase", "upstream/main"], some root⟩

/-- `git stash pop` (lines 185-192). -/
def stashPopInv (root : String) : Invocation :=
  ⟨"git", ["stash", "pop"], some root⟩

/-! ### Embedded functions of `src/update.rs` -/

/-- `add_upstream_remote` (lines 203-212): issues the remote-add invocation;
the only `?` is on the spawn future, so a completed process — whatever its
exit status or output — yields `Ok(())`; only a spawn failure propagates. -/
def add_upstream_remote (run : Runner) (root : String) (config : Config) :
    RunResult Unit :=
  let inv := remoteAddInv root config
  match run inv with
  | .spawnError m => ⟨[inv], .error (.spawn m)⟩
  | .completed _ => ⟨[inv], .ok ()⟩

/-- Rust `str::parse::<u32>`: optional leading sign handled as in core
(`+` accepted, digits required), value must fit in 32 bits. -/
def parseDigits : List Char → Nat → Option Nat
  | [], acc => some acc
  | c :: cs, acc =>
      if c.isDigit then parseDigits cs (acc * 10 + (c.toNat - 48)) else none

/-- Rust `str::trim`: strip leading and trailing whitespace. -/
def rustTrim (s : String) : String :=
  ⟨((s.toList.dropWhile Char.isWhitespace).reverse.dropWhile Char.isWhitespace).reverse⟩

/-- `String::parse::<u32>` as used at `src/update.rs` line 120. -/
def parseU32 (s : String) : Option Nat :=
  let cs := match s.toList with
    | '+' :: rest => rest
    | other => other
  match cs with
  | [] => none
  | _ =>
    match parseDigits cs 0 with
    | none => none
    | some n => if n < 2 ^ 32 then some n else none

/-- `has_upstream_changes` (lines 93-123): ensure the upstream remote, fetch
`upstream main`, count commits in `HEAD..upstream/main`, return
`count > 0`. -/
def has_upstream_changes (run : Runner) (root : String) (config : Config) :
    RunResult Bool :=
  let r0 := add_upstream_remote run root config
  match r0.result with
  | .error e => ⟨r0.trace, .error e⟩
  | .ok _ =>
    match run (fetchInv root) with
    | .spawnError _ =>
        ⟨r0.trace ++ [fetchInv root], .error (.spawn "Failed to fetch upstream")⟩
    | .completed o1 =>
      if o1.success then
        match run (revListInv root) with
        | .spawnError _ =>
            ⟨r0.trace ++ [fetchInv root, revListInv root],
             .error (.spawn "Failed to check for updates")⟩
        | .completed o2 =>
          if o2.success then
            match parseU32 (rustTrim o2.stdout) with
            | some n =>
                ⟨r0.trace ++ [fetchInv root, revListInv root], .ok (decide (0 < n))⟩
            | none =>
                ⟨r0.trace ++ [fetchInv root, revListInv root],
                 .error (.parse "invalid u32")⟩
          else
            ⟨r0.trace ++ [fetchInv root, revListInv root],
             .error (.bailMsg "Git rev-list failed" o2.stderr)⟩
      else
        ⟨r0.trace ++ [fetchInv root], .error (.bailMsg "Git fetch failed" o1.stderr)⟩

/-- `str::split_whitespace().next()`: the first maximal run of
non-whitespace characters, or `none` when the string is all whitespace. -/
def firstTokenAux : List Char → Option (List Char)
  | [] => none
  | c :: cs =>
      if c.isWhitespace then firstTokenAux cs
      else some (c :: cs.takeWhile (fun d => !d.isWhitespace))

/-- First whitespace-separated token of a string (`get_remote_cli_hash`,
lines 62-65). -/
def firstToken (s : String) : Option String :=
  (firstTokenAux s.toList).map fun l => ⟨l⟩

/-- `get_remote_cli_hash` (lines 50-68): run the lightweight remote head
query, fail on spawn error or non-zero exit, extract the first token of
stdout, fail if there is none. -/
def get_remote_cli_hash (run : Runner) : RunResult String :=
  match run lsRemoteInv with
  | .spawnError _ =>
      ⟨[lsRemoteInv], .error (.spawn "Failed to check remote CLI version")⟩
  | .completed o =>
    if o.success then
      match firstToken o.stdout with
      | some h => ⟨[lsRemoteInv], .ok h⟩
      | none => ⟨[lsRemoteInv], .error (.parse "Invalid remote response")⟩
    else
      ⟨[lsRemoteInv], .error (.bailMsg "Failed to fetch remote hash" o.stderr)⟩

/-- `has_cli_updates` (lines 39-44): the build-time hash (`env!("GIT_HASH")`,
passed here as `currentHash`) differs from the remote head hash. -/
def has_cli_updates (run : Runner) (currentHash : String) : RunResult Bool :=
  let r := get_remote_cli_hash run
  match r.result with
  | .error e => ⟨r.trace, .error e⟩
  | .ok latest => ⟨r.trace, .ok (currentHash != latest)⟩

/-- `check_all_updates` (lines 8-14).  Both queries run (`tokio::join!`),
then the value is `Ok(cli? || starterpack?)`: the `?` on the CLI result
fires first, and when it yields `true` the boolean or-operator
short-circuits, so the starterpack result — error or not — is never
consulted. -/
def check_all_updates (run : Runner) (root : String) (config : Config)
    (currentHash : String) : Except CliError Bool :=
  match (has_cli_updates run currentHash).result with
  | .error e => .error e
  | .ok b =>
    if b then .ok true
    else
      match (has_upstream_changes run root config).result with
      | .error e => .error e
      | .ok c => .ok c

/-- `update_cli` (lines 70-91): `cargo install --git <url>`, spawn failure
or non-zero exit is an error. -/
def update_cli (run : Runner) : RunResult Unit :=
  match run cargoInstallInv with
  | .spawnError _ => ⟨[cargoInstallInv], .error (.spawn "Failed to update CLI")⟩
  | .completed o =>
    if o.success then ⟨[cargoInstallInv], .ok ()⟩
    else ⟨[cargoInstallInv], .error (.bailMsg "CLI update failed" "")⟩

/-- `update_starterpack` (lines 125-201): the four-step sequence
restore → stash → rebase → stash pop, each a separate invocation whose
spawn failure or non-zero exit aborts the rest. -/
def update_starterpack (run : Runner) (root : String) (config : Config) :
    RunResult Unit :=
  let sp := strategy_path config
  match run (restoreInv root sp) with
  | .spawnError _ =>
      ⟨[restoreInv root sp], .error (.spawn "Failed to run git restore")⟩
  | .completed o1 =>
    if o1.success then
      match run (stashInv root) with
      | .spawnError _ =>
          ⟨[restoreInv root sp, stashInv root], .error (.spawn "Failed to run git stash")⟩
      | .completed o2 =>
        if o2.success then
          match run (rebaseInv root) with
          | .spawnError _ =>
              ⟨[restoreInv root sp, stashInv root, rebaseInv root],
               .error (.spawn "Failed to run git rebase")⟩
          | .completed o3 =>
            if o3.success then
              match run (stashPopInv root) with
              | .spawnError _ =>
                  ⟨[restoreInv root sp, stashInv root, rebaseInv root, stashPopInv root],
                   .error (.spawn "Failed to run git stash pop")⟩
              | .completed o4 =>
                if o4.success then
                  ⟨[restoreInv root sp, stashInv root, rebaseInv root, stashPopInv root],
                   .ok ()⟩
                else
                  ⟨[restoreInv root sp, stashInv root, rebaseInv root, stashPopInv root],
                   .error (.bailMsg "Git stash pop failed" o4.stderr)⟩
            else
              ⟨[restoreInv root sp, stashInv root, rebaseInv root],
               .error (.bailMsg "Git rebase failed" o3.stderr)⟩
        else
          ⟨[restoreInv root sp, stashInv root],
           .error (.bailMsg "Git stash failed" o2.stderr)⟩
    else
      ⟨[restoreInv root sp], .error (.bailMsg "Git restore failed" o1.stderr)⟩

/-- The canonical ordered step list of `update_starterpack`. -/
def syncSeq (root sp : String) : List Invocation :=
  [restoreInv root sp, stashInv root, rebaseInv root, stashPopInv root]

/-- Observable actions of `update_all` beyond the staleness checks. -/
inductive UpdateEvent where
  | invokedUpdateCli
  | invokedUpdateStarterpack
  | printedUpToDate
deriving DecidableEq, Repr

/-- `update_all` (lines 16-37): run both staleness checks (both `?`s fire,
CLI first), then conditionally self-update — whose failure aborts via `?` —
then conditionally sync the starterpack, and print the up-to-date message
exactly when neither side was stale. -/
def update_all (run : Runner) (root : String) (config : Config)
    (currentHash : String) : List UpdateEvent × Except CliError Unit :=
  match (has_cli_updates run currentHash).result with
  | .error e => ([], .error e)
  | .ok cliNeeds =>
    match (has_upstream_changes run root config).result with
    | .error e => ([], .error e)
    | .ok spNeeds =>
      if cliNeeds then
        match (update_cli run).result with
        | .error e => ([.invokedUpdateCli], .error e)
        | .ok _ =>
          if spNeeds then
            match (update_starterpack run root config).result with
            | .error e => ([.invokedUpdateCli, .invokedUpdateStarterpack], .error e)
            | .ok _ => ([.invokedUpdateCli, .invokedUpdateStarterpack], .ok ())
          else
            ([.invokedUpdateCli], .ok ())
      else
        if spNeeds then
          match (update_starterpack run root config).result with
          | .error e => ([.invokedUpdateStarterpack], .error e)
          | .ok _ => ([.invokedUpdateStarterpack], .ok ())
        else
          ([.printedUpToDate], .ok ())

/-! ### Semantic model of the four git steps, for the net postcondition

The repository semantics live in the external version-control tool, not in
this crate; the spec (§4.2) describes the effect of each step, so the step
semantics below are modelled from the spec at file-path granularity and the
sequence is composed in exactly the order `update_starterpack` issues it. -/

/-- A file tree: the content at each tracked path. -/
def Tree : Type := String → String

/-- The first list is an initial segment of the second. -/
def leadsWith : List Char → List Char → Bool
  | [], _ => true
  | _ :: _, [] => false
  | c :: cs, d :: ds => c == d && leadsWith cs ds

/-- A path lies in the protected strategy subtree: it is the subtree's own
path or a descendant of it (the two pathspec exclusions of the restore
invocation). -/
def underStrategy (sp path : String) : Bool :=
  path == sp || leadsWith (sp ++ "/").toList path.toList

/-- Modelled from the spec (§3, §4.2): the repository state the sequence
acts on — merge-base tree between local head and the template branch, local
head tree, template-branch tip tree, working tree, the stash stack (each
entry records the head it was taken against and the shelved working tree),
and whether the local head already descends from the template tip. -/
structure RepoState where
  base : Tree
  head : Tree
  upstream : Tree
  work : Tree
  stash : List (Tree × Tree)
  headDescendsUpstream : Bool

/-- Modelled from the spec (§4.2 step 1, selective restore): every tracked
file outside the protected subtree takes the template tip's content; the
protected subtree is untouched. -/
def stepRestore (sp : String) (s : RepoState) : RepoState :=
  { s with work := fun f => if underStrategy sp f then s.work f else s.upstream f }

/-- Modelled from the spec (§4.2 step 2, shelve): capture the entire
working-tree diff against the head as one recoverable snapshot and revert
the working tree to the head's content.  A clean tree shelves an empty
diff; the step itself always succeeds. -/
def stepShelve (s : RepoState) : RepoState :=
  { s with stash := (s.head, s.work) :: s.stash, work := s.head }

/-- Modelled from the spec (§4.2 step 3, rebase): replaying the local
commits onto the template tip gives, per file, the local head's content
where the local history changed it relative to the merge base, and the
template tip's content where it did not. -/
def rebasedTree (s : RepoState) : Tree :=
  fun f => if s.head f = s.base f then s.upstream f else s.head f

/-- The rebase step completes without conflict: no file was changed to two
different contents by the local history and the template history. -/
def rebaseNoConflict (s : RepoState) : Prop :=
  ∀ f, s.head f = s.base f ∨ s.upstream f = s.base f ∨ s.head f = s.upstream f

/-- Modelled from the spec (§4.2 step 3): on success the new head (and the
checked-out working tree) is the rebased tree, which now descends from the
template tip. -/
def stepRebase (s : RepoState) : RepoState :=
  { s with head := rebasedTree s, work := rebasedTree s,
           base := s.upstream, headDescendsUpstream := true }

/-- Modelled from the spec (§4.2 step 4, unshelve): reapplying a snapshot
taken against `parent` on top of the current tree keeps the current content
where the snapshot recorded no change and the snapshot's content where it
did. -/
def popMerged (parent snap cur : Tree) : Tree :=
  fun f => if snap f = parent f then cur f else snap f

/-- The unshelve step completes without conflict: no file was changed both
by the snapshot (against its parent) and by the current tree (against that
same parent) to different contents. -/
def popNoConflict (parent snap cur : Tree) : Prop :=
  ∀ f, snap f = parent f ∨ cur f = parent f ∨ snap f = cur f

/-- Modelled from the spec (§4.2 step 4): pop the most recent stash entry
onto the working tree; with an empty stash the pop invocation fails. -/
def stepUnshelve (s : RepoState) : Option RepoState :=
  match s.stash with
  | [] => none
  | (parent, snap) :: rest =>
      some { s with work := popMerged parent snap s.work, stash := rest }

/-- The semantic effect of a full `update_starterpack` run, steps composed
in the order the source issues them (restore, stash, rebase, stash pop). -/
def syncScaffoldRun (sp : String) (s : RepoState) : Option RepoState :=
  stepUnshelve (stepRebase (stepShelve (stepRestore sp s)))

/-! ### Concrete scripted runners used to instantiate the theorems -/

/-- A rust-language configuration. -/
def cfgRust : Config := ⟨.rust, "https://api.mechmania.example"⟩

/-- Every invocation completes with exit status zero and empty output. -/
def allOkRunner : Runner := fun _ => .completed ⟨true, "", ""⟩

/-- The remote-add invocation completes with a non-zero exit (remote already
exists); a completed process regardless. -/
def remoteAddConflictRunner : Runner :=
  fun _ => .completed ⟨false, "", "error: remote upstream already exists."⟩

/-- The remote head query succeeds; every other invocation fails to spawn. -/
def c2Runner : Runner := fun i =>
  if i = lsRemoteInv then .completed ⟨true, "0123abcd HEAD", ""⟩
  else .spawnError "network unreachable"

/-- The remote head query answers with a hash token. -/
def lsOkRunner : Runner := fun _ => .completed ⟨true, "abc123 HEAD", ""⟩

/-- The ahead-count query reports three commits; everything else exits
zero. -/
def aheadRunner : Runner := fun i =>
  if i = revListInv "proj" then .completed ⟨true, "3\n", ""⟩
  else .completed ⟨true, "", ""⟩

/-- Remote head query fails to spawn; local git invocations succeed with an
ahead-count of zero. -/
def c9RunnerA : Runner := fun i =>
  if i = lsRemoteInv then .spawnError "network down"
  else .completed ⟨true, "0\n", ""⟩

/-- Same local responses as `c9RunnerA`, but the remote head query
succeeds: the two runners agree on every invocation
`has_upstream_changes` issues. -/
def c9RunnerB : Runner := fun _ => .completed ⟨true, "0\n", ""⟩

/-! ### Claims -/

/-- C7: `add_upstream_remote` ignores the exit status of the remote-add
invocation — any completed process (already-exists conflict or any other
failure alike) yields success — and only a spawn failure propagates as an
error. -/
theorem add_upstream_remote_tolerates_exit_status (run : Runner) (root : String)
    (config : Config) :
    (∀ o, run (remoteAddInv root config) = .completed o →
        (add_upstream_remote run root config).result = .ok ()) ∧
    (∀ m, run (remoteAddInv root config) = .spawnError m →
        (add_upstream_remote run root config).result = .error (.spawn m)) := by
  constructor
  · intro o h
    simp [add_upstream_remote, h]
  · intro m h
    simp [add_upstream_remote, h]

/-- Witness for C7: a remote-add that exits non-zero with an
"already exists" diagnostic still yields `Ok(())`. -/
theorem add_upstream_remote_tolerates_exit_status_witness :
    (add_upstream_remote remoteAddConflictRunner "proj" cfgRust).result = .ok () :=
  (add_upstream_remote_tolerates_exit_status remoteAddConflictRunner "proj" cfgRust).1
    ⟨false, "", "error: remote upstream already exists."⟩ rfl

/-- C6: `has_cli_updates` returns `ok` exactly with the inequality of the
build-time hash and the first token of the head query's stdout, and returns
an error when the query cannot be started, exits non-zero, or produces
output with no token. -/
theorem has_cli_updates_spec (run : Runner) (cur : String) :
    (∀ o tok, run lsRemoteInv = .completed o → o.success = true →
        firstToken o.stdout = some tok →
        (has_cli_updates run cur).result = .ok (cur != tok)) ∧
    (∀ m, run lsRemoteInv = .spawnError m →
        (has_cli_updates run cur).result
          = .error (.spawn "Failed to check remote CLI version")) ∧
    (∀ o, run lsRemoteInv = .completed o → o.success = false →
        (has_cli_updates run cur).result
          = .error (.bailMsg "Failed to fetch remote hash" o.stderr)) ∧
    (∀ o, run lsRemoteInv = .completed o → o.success = true →
        firstToken o.stdout = none →
        (has_cli_updates run cur).result = .error (.parse "Invalid remote response")) := by
  refine ⟨?_, ?_, ?_, ?_⟩
  · intro o tok h hs ht
    simp [has_cli_updates, get_remote_cli_hash, h, hs, ht]
  · intro m h
    simp [has_cli_updates, get_remote_cli_hash, h]
  · intro o h hs
    simp [has_cli_updates, get_remote_cli_hash, h, hs]
  · intro o h hs ht
    simp [has_cli_updates, get_remote_cli_hash, h, hs, ht]

/-- Witness for C6: a differing remote hash is reported as stale. -/
theorem has_cli_updates_spec_witness :
    (has_cli_updates lsOkRunner "ffff").result = .ok true := by
  have h := (has_cli_updates_spec lsOkRunner "ffff").1
    ⟨true, "abc123 HEAD", ""⟩ "abc123" rfl rfl (by decide)
  simpa using h

/-- C5: when the remote-add process completes, the fetch and ahead-count
invocations both exit zero and the count output parses as `n`,
`has_upstream_changes` issues exactly remote-add, fetch, rev-list in that
order and returns true iff `n > 0` (false iff `n = 0`). -/
theorem has_upstream_changes_spec (run : Runner) (root : String) (config : Config)
    (oR oF oL : ExecOutput) (n : Nat)
    (hR : run (remoteAddInv root config) = .completed oR)
    (hF : run (fetchInv root) = .completed oF) (hFs : oF.success = true)
    (hL : run (revListInv root) = .completed oL) (hLs : oL.success = true)
    (hn : parseU32 (rustTrim oL.stdout) = some n) :
    (has_upstream_changes run root config).trace
        = [remoteAddInv root config, fetchInv root, revListInv root] ∧
    ((has_upstream_changes run root config).result = .ok true ↔ 0 < n) ∧
    ((has_upstream_changes run root config).result = .ok false ↔ n = 0) := by
  refine ⟨?_, ?_, ?_⟩
  · simp [has_upstream_changes, add_upstream_remote, hR, hF, hFs, hL, hLs, hn]
  · simp [has_upstream_changes, add_upstream_remote, hR, hF, hFs, hL, hLs, hn]
  · simp [has_upstream_changes, add_upstream_remote, hR, hF, hFs, hL, hLs, hn,
          Nat.pos_iff_ne_zero]

/-- Witness for C5: an ahead-count of three reports stale. -/
theorem has_upstream_changes_spec_witness :
    (has_upstream_changes aheadRunner "proj" cfgRust).result = .ok true := by
  have h := has_upstream_changes_spec aheadRunner "proj" cfgRust
    ⟨true, "", ""⟩ ⟨true, "", ""⟩ ⟨true, "3\n", ""⟩ 3
    (by decide) (by decide) rfl (by decide) rfl (by decide)
  exact h.2.1.mpr (by decide)

/-- C2 counterexample: with the tool-staleness query succeeding and stale
(`ok true`) while the scaffold-staleness query fails (its remote-add cannot
even spawn), `check_all_updates` returns the success value `ok true` — the
short-circuiting boolean or never consults the failed scaffold result — so
the claim that the combined check fails whenever either side fails is false
on this input. -/
theorem check_all_updates_short_circuit_cex :
    (has_cli_updates c2Runner "ffff").result = .ok true ∧
    (has_upstream_changes c2Runner "proj" cfgRust).result
        = .error (.spawn "network unreachable") ∧
    check_all_updates c2Runner "proj" cfgRust "ffff" = .ok true :=
  ⟨rfl, rfl, rfl⟩

/-- C2 amended: a failure of the tool-staleness query always fails the
combined check; when the tool query succeeds and reports not-stale the
combined check equals the scaffold result (so a scaffold failure fails it);
but when the tool query succeeds and reports stale, the combined check
returns `ok true` regardless of the scaffold query's outcome. -/
theorem check_all_updates_amended (run : Runner) (root : String) (config : Config)
    (cur : String) :
    (∀ e, (has_cli_updates run cur).result = .error e →
        check_all_updates run root config cur = .error e) ∧
    ((has_cli_updates run cur).result = .ok true →
        check_all_updates run root config cur = .ok true) ∧
    ((has_cli_updates run cur).result = .ok false →
        check_all_updates run root config cur
          = (has_upstream_changes run root config).result) := by
  refine ⟨?_, ?_, ?_⟩
  · intro e h
    simp [check_all_updates, h]
  · intro h
    simp [check_all_updates, h]
  · intro h
    cases hs : (has_upstream_changes run root config).result with
    | error e => simp [check_all_updates, h, hs]
    | ok c => simp [check_all_updates, h, hs]

/-- Witness for C2 amended: the stale-tool short-circuit at a concrete
runner whose scaffold query fails. -/
theorem check_all_updates_amended_witness :
    check_all_updates c2Runner "proj" cfgRust "ffff" = .ok true :=
  (check_all_updates_amended c2Runner "proj" cfgRust "ffff").2.1 rfl

/-- C9: `has_upstream_changes` is a function of the external responses to
the three invocations it issues — two runs whose worlds answer those three
invocations identically produce identical traces and results, so repeating
the call with no intervening remote change repeats the answer. -/
theorem has_upstream_changes_deterministic (run1 run2 : Runner) (root : String)
    (config : Config)
    (h1 : run1 (remoteAddInv root config) = run2 (remoteAddInv root config))
    (h2 : run1 (fetchInv root) = run2 (fetchInv root))
    (h3 : run1 (revListInv root) = run2 (revListInv root)) :
    has_upstream_changes run1 root config = has_upstream_changes run2 root config := by
  simp only [has_upstream_changes, add_upstream_remote, h1, h2, h3]

/-- Witness for C9: two worlds that differ on the tool's own remote head
query but agree on the scaffold invocations give the same scaffold
staleness verdict. -/
theorem has_upstream_changes_deterministic_witness :
    has_upstream_changes c9RunnerA "proj" cfgRust
      = has_upstream_changes c9RunnerB "proj" cfgRust :=
  has_upstream_changes_deterministic c9RunnerA c9RunnerB "proj" cfgRust
    (by decide) (by decide) (by decide)

/-- `git stash drop` — an invocation the source never issues; used to state
its absence from failure-path traces. -/
def stashDropInv (root : String) : Invocation :=
  ⟨"git", ["stash", "drop"], some root⟩

/-- A step reported success iff its process completed with exit status
zero. -/
theorem stepOk_iff (run : Runner) (i : Invocation) :
    stepOk run i = true ↔ ∃ o, run i = .completed o ∧ o.success = true := by
  cases h : run i <;> simp [stepOk, h]

/-- The rebase invocation fails to complete successfully under
`rebaseFailRunner`; everything else exits zero. -/
def rebaseFailRunner : Runner := fun i =>
  if i = rebaseInv "proj" then .completed ⟨false, "", "CONFLICT: merge conflict"⟩
  else .completed ⟨true, "", ""⟩

/-- A clean working tree: the stash invocation succeeds while saving
nothing, and the pop invocation then exits non-zero. -/
def emptyStashRunner : Runner := fun i =>
  if i = stashPopInv "proj" then .completed ⟨false, "", "No stash entries found."⟩
  else if i = stashInv "proj" then .completed ⟨true, "No local changes to save", ""⟩
  else .completed ⟨true, "", ""⟩

/-- Both staleness checks report fresh under `freshRunner`: the remote head
hash equals the build hash used below, and the ahead-count is zero. -/
def freshRunner : Runner := fun i =>
  if i = lsRemoteInv then .completed ⟨true, "abc123 HEAD", ""⟩
  else .completed ⟨true, "0\n", ""⟩

/-- C3: every run of `update_starterpack` issues a prefix of the canonical
sequence restore, stash, rebase, stash pop in that order with no step
repeated; every issued step except possibly the last reported success; the
run succeeds iff all four steps report success; and on the all-success path
all four steps are issued (none skipped). -/
theorem update_starterpack_step_machine (run : Runner) (root : String)
    (config : Config) :
    ((update_starterpack run root config).trace
        = (syncSeq root (strategy_path config)).take
            (update_starterpack run root config).trace.length) ∧
    (update_starterpack run root config).trace.Nodup ∧
    (∀ i ∈ (update_starterpack run root config).trace.dropLast, stepOk run i = true) ∧
    ((update_starterpack run root config).result = .ok ()
        ↔ ∀ i ∈ syncSeq root (strategy_path config), stepOk run i = true) ∧
    ((∀ i ∈ syncSeq root (strategy_path config), stepOk run i = true) →
        (update_starterpack run root config).trace
          = syncSeq root (strategy_path config)) := by
  cases h1 : run (restoreInv root (strategy_path config)) with
  | spawnError m =>
      simp only [restoreInv, stashInv, rebaseInv, stashPopInv] at h1
      simp [update_starterpack, syncSeq, stepOk, h1,
            restoreInv, stashInv, rebaseInv, stashPopInv, String.ext_iff]
  | completed o1 =>
    cases ho1 : o1.success with
    | false =>
        simp only [restoreInv, stashInv, rebaseInv, stashPopInv] at h1
        simp [update_starterpack, syncSeq, stepOk, h1, ho1,
              restoreInv, stashInv, rebaseInv, stashPopInv, String.ext_iff]
    | true =>
      cases h2 : run (stashInv root) with
      | spawnError m =>
          simp only [restoreInv, stashInv, rebaseInv, stashPopInv] at h1 h2
          simp [update_starterpack, syncSeq, stepOk, h1, ho1, h2,
                restoreInv, stashInv, rebaseInv, stashPopInv, String.ext_iff]
      | completed o2 =>
        cases ho2 : o2.success with
        | false =>
            simp only [restoreInv, stashInv, rebaseInv, stashPopInv] at h1 h2
            simp [update_starterpack, syncSeq, stepOk, h1, ho1, h2, ho2,
                  restoreInv, stashInv, rebaseInv, stashPopInv, String.ext_iff]
        | true =>
          cases h3 : run (rebaseInv root) with
          | spawnError m =>
              simp only [restoreInv, stashInv, rebaseInv, stashPopInv] at h1 h2 h3
              simp [update_starterpack, syncSeq, stepOk, h1, ho1, h2, ho2, h3,
                    restoreInv, stashInv, rebaseInv, stashPopInv, String.ext_iff]
          | completed o3 =>
            cases ho3 : o3.success with
            | false =>
                simp only [restoreInv, stashInv, rebaseInv, stashPopInv] at h1 h2 h3
                simp [update_starterpack, syncSeq, stepOk, h1, ho1, h2, ho2, h3, ho3,
                      restoreInv, stashInv, rebaseInv, stashPopInv, String.ext_iff]
            | true =>
              cases h4 : run (stashPopInv root) with
              | spawnError m =>
                  simp only [restoreInv, stashInv, rebaseInv, stashPopInv] at h1 h2 h3 h4
                  simp [update_starterpack, syncSeq, stepOk,
                        h1, ho1, h2, ho2, h3, ho3, h4,
                        restoreInv, stashInv, rebaseInv, stashPopInv, String.ext_iff]
              | completed o4 =>
                cases ho4 : o4.success with
                | false =>
                    simp only [restoreInv, stashInv, rebaseInv, stashPopInv] at h1 h2 h3 h4
                    simp [update_starterpack, syncSeq, stepOk,
                          h1, ho1, h2, ho2, h3, ho3, h4, ho4,
                          restoreInv, stashInv, rebaseInv, stashPopInv, String.ext_iff]
                | true =>
                    simp only [restoreInv, stashInv, rebaseInv, stashPopInv] at h1 h2 h3 h4
                    simp [update_starterpack, syncSeq, stepOk,
                          h1, ho1, h2, ho2, h3, ho3, h4, ho4,
                          restoreInv, stashInv, rebaseInv, stashPopInv, String.ext_iff]

/-- Witness for C3: under the all-success world the run succeeds and the
trace is exactly the canonical four-step sequence. -/
theorem update_starterpack_step_machine_witness :
    (update_starterpack allOkRunner "proj" cfgRust).trace
      = syncSeq "proj" (strategy_path cfgRust) :=
  (update_starterpack_step_machine allOkRunner "proj" cfgRust).2.2.2.2
    (by intro i _; rfl)

/-- C4: when restore and stash report success and the rebase invocation
exits non-zero, the result is the failure tagged with the rebase step
carrying the tool's stderr text, the trace stops at the rebase invocation —
in particular no stash pop and no stash drop is ever issued on this path,
so the shelved entry is not consumed or discarded. -/
theorem update_starterpack_rebase_failure (run : Runner) (root : String)
    (config : Config) (o3 : ExecOutput)
    (h1 : stepOk run (restoreInv root (strategy_path config)) = true)
    (h2 : stepOk run (stashInv root) = true)
    (h3 : run (rebaseInv root) = .completed o3) (ho3 : o3.success = false) :
    (update_starterpack run root config).result
        = .error (.bailMsg "Git rebase failed" o3.stderr) ∧
    (update_starterpack run root config).trace
        = [restoreInv root (strategy_path config), stashInv root, rebaseInv root] ∧
    stashPopInv root ∉ (update_starterpack run root config).trace ∧
    stashDropInv root ∉ (update_starterpack run root config).trace := by
  rcases (stepOk_iff run _).mp h1 with ⟨o1, hr1, ho1⟩
  rcases (stepOk_iff run _).mp h2 with ⟨o2, hr2, ho2⟩
  simp only [restoreInv, stashInv, rebaseInv] at hr1 hr2 h3
  refine ⟨?_, ?_, ?_, ?_⟩
  · simp [update_starterpack, restoreInv, stashInv, rebaseInv,
          hr1, ho1, hr2, ho2, h3, ho3]
  · simp [update_starterpack, restoreInv, stashInv, rebaseInv,
          hr1, ho1, hr2, ho2, h3, ho3]
  · simp [update_starterpack, hr1, ho1, hr2, ho2, h3, ho3,
          restoreInv, stashInv, rebaseInv, stashPopInv, String.ext_iff]
  · simp [update_starterpack, hr1, ho1, hr2, ho2, h3, ho3,
          restoreInv, stashInv, rebaseInv, stashDropInv, String.ext_iff]

/-- Witness for C4: a concrete conflicting rebase yields the rebase-tagged
failure with the conflict diagnostic. -/
theorem update_starterpack_rebase_failure_witness :
    (update_starterpack rebaseFailRunner "proj" cfgRust).result
      = .error (.bailMsg "Git rebase failed" "CONFLICT: merge conflict") :=
  (update_starterpack_rebase_failure rebaseFailRunner "proj" cfgRust
      ⟨false, "", "CONFLICT: merge conflict"⟩
      (by decide) (by decide) (by decide) rfl).1

/-- C10: once restore, stash and rebase have reported success the stash-pop
invocation is issued unconditionally — the stash step's output (for example
"No local changes to save" on a clean tree) is never inspected and there is
no branch that skips the pop — and a non-zero pop exit fails the whole run
at this final step with the pop-tagged error. -/
theorem update_starterpack_unconditional_pop (run : Runner) (root : String)
    (config : Config)
    (h1 : stepOk run (restoreInv root (strategy_path config)) = true)
    (h2 : stepOk run (stashInv root) = true)
    (h3 : stepOk run (rebaseInv root) = true) :
    stashPopInv root ∈ (update_starterpack run root config).trace ∧
    (∀ o4, run (stashPopInv root) = .completed o4 → o4.success = false →
        (update_starterpack run root config).result
          = .error (.bailMsg "Git stash pop failed" o4.stderr)) ∧
    (∀ m, run (stashPopInv root) = .spawnError m →
        (update_starterpack run root config).result
          = .error (.spawn "Failed to run git stash pop")) := by
  rcases (stepOk_iff run _).mp h1 with ⟨o1, hr1, ho1⟩
  rcases (stepOk_iff run _).mp h2 with ⟨o2, hr2, ho2⟩
  rcases (stepOk_iff run _).mp h3 with ⟨o3, hr3, ho3⟩
  simp only [restoreInv, stashInv, rebaseInv] at hr1 hr2 hr3
  refine ⟨?_, ?_, ?_⟩
  · cases h4 : run (stashPopInv root) with
    | spawnError m =>
        simp only [stashPopInv] at h4
        simp [update_starterpack, restoreInv, stashInv, rebaseInv, stashPopInv,
              hr1, ho1, hr2, ho2, hr3, ho3, h4]
    | completed o4 =>
        cases ho4 : o4.success with
        | false =>
            simp only [stashPopInv] at h4
            simp [update_starterpack, restoreInv, stashInv, rebaseInv, stashPopInv,
                  hr1, ho1, hr2, ho2, hr3, ho3, h4, ho4]
        | true =>
            simp only [stashPopInv] at h4
            simp [update_starterpack, restoreInv, stashInv, rebaseInv, stashPopInv,
                  hr1, ho1, hr2, ho2, hr3, ho3, h4, ho4]
  · intro o4 h4 ho4
    simp only [stashPopInv] at h4
    simp [update_starterpack, restoreInv, stashInv, rebaseInv, stashPopInv,
          hr1, ho1, hr2, ho2, hr3, ho3, h4, ho4]
  · intro m h4
    simp only [stashPopInv] at h4
    simp [update_starterpack, restoreInv, stashInv, rebaseInv, stashPopInv,
          hr1, ho1, hr2, ho2, hr3, ho3, h4]

/-- Witness for C10: a clean-tree run (no-op stash, empty stash list)
reaches the pop step and fails there. -/
theorem update_starterpack_unconditional_pop_witness :
    (update_starterpack emptyStashRunner "proj" cfgRust).result
      = .error (.bailMsg "Git stash pop failed" "No stash entries found.") :=
  (update_starterpack_unconditional_pop emptyStashRunner "proj" cfgRust
      (by decide) (by decide) (by decide)).2.1
    ⟨false, "", "No stash entries found."⟩ (by decide) rfl

/-- C8: after both staleness checks succeed, `update_all` invokes the
self-updater iff the tool is stale, invokes the scaffold sync iff the
scaffold is stale (on every path where the self-update did not fail),
prints the up-to-date message iff neither is stale, and a self-update
failure aborts the command with that error before any scaffold sync. -/
theorem update_all_dispatch (run : Runner) (root : String) (config : Config)
    (cur : String) (bc bs : Bool)
    (hc : (has_cli_updates run cur).result = .ok bc)
    (hs : (has_upstream_changes run root config).result = .ok bs) :
    (UpdateEvent.invokedUpdateCli ∈ (update_all run root config cur).1 ↔ bc = true) ∧
    ((bc = true → (update_cli run).result = .ok ()) →
        (UpdateEvent.invokedUpdateStarterpack ∈ (update_all run root config cur).1
          ↔ bs = true)) ∧
    (UpdateEvent.printedUpToDate ∈ (update_all run root config cur).1
        ↔ (bc = false ∧ bs = false)) ∧
    (∀ e, bc = true → (update_cli run).result = .error e →
        (update_all run root config cur).2 = .error e ∧
        UpdateEvent.invokedUpdateStarterpack ∉ (update_all run root config cur).1) := by
  cases bc with
  | false =>
    cases bs with
    | false => simp [update_all, hc, hs]
    | true =>
      cases hsp : (update_starterpack run root config).result with
      | error e => simp [update_all, hc, hs, hsp]
      | ok u => simp [update_all, hc, hs, hsp]
  | true =>
    cases hcli : (update_cli run).result with
    | error e => simp [update_all, hc, hs, hcli]
    | ok u =>
      cases bs with
      | false => simp [update_all, hc, hs, hcli]
      | true =>
        cases hsp : (update_starterpack run root config).result with
        | error e => simp [update_all, hc, hs, hcli, hsp]
        | ok v => simp [update_all, hc, hs, hcli, hsp]

/-- Witness for C8: with both sides fresh, the only action is the
up-to-date message. -/
theorem update_all_dispatch_witness :
    UpdateEvent.printedUpToDate ∈ (update_all freshRunner "proj" cfgRust "abc123").1 :=
  (update_all_dispatch freshRunner "proj" cfgRust "abc123" false false
      rfl rfl).2.2.1.mpr ⟨rfl, rfl⟩

/-! ### C1: the net postcondition of a fully successful sync -/

/-- The protected file of the counterexample repository. -/
def cexProtectedFile : String := "src/strategy/bot.rs"

/-- Local tree (base, head and working tree alike): the strategy file still
holds the untouched skeleton, the rest of the tree holds "old". -/
def cexLocalTree : Tree := fun f => if f = cexProtectedFile then "skeleton" else "old"

/-- Template tip: the template has advanced both the strategy skeleton and
the non-protected files since the merge base. -/
def cexUpstreamTree : Tree := fun f => if f = cexProtectedFile then "skeleton-v2" else "new"

/-- A repository whose user never touched anything: working tree, head and
merge base coincide, while the template advanced every file. -/
def cexState : RepoState :=
  ⟨cexLocalTree, cexLocalTree, cexUpstreamTree, cexLocalTree, [], false⟩

/-- C1 counterexample: in a run where every step succeeds (the rebase and
the stash pop are both conflict-free), a protected strategy file the user
never modified — in working tree or in commits — ends up with the template
remote's new content, because `git rebase upstream/main` carries the
template's strategy changes into the local head and nothing restores the
old content.  The protected subtree is therefore not byte-identical to its
pre-sync state, refuting the claim as stated. -/
theorem syncScaffold_protected_overwrite_cex :
    rebaseNoConflict cexState
    ∧ popNoConflict cexState.head
        (stepRestore (strategy_path cfgRust) cexState).work (rebasedTree cexState)
    ∧ (syncScaffoldRun (strategy_path cfgRust) cexState).map
        (fun t => t.work cexProtectedFile) = some "skeleton-v2"
    ∧ cexState.work cexProtectedFile = "skeleton"
    ∧ ("skeleton-v2" : String) ≠ "skeleton" := by
  refine ⟨fun f => Or.inl rfl, ?_, by decide, by decide, by decide⟩
  intro f
  cases h : underStrategy (strategy_path cfgRust) f with
  | true =>
      left
      simp [stepRestore, h, cexState]
  | false =>
      right; right
      simp [stepRestore, h, rebasedTree, cexState]

/-- C1 amended: after a fully successful run (conflict-free rebase and
unshelve), every non-protected tracked file equals the template tip's
content, the head descends from the template tip and the shelved snapshot
has been consumed, and a protected file keeps its pre-sync content provided
the user had touched it (head differs from merge base, or working tree
differs from head) or the template had not (template tip equals merge
base); the counterexample shows the protected-subtree clause cannot hold
without that proviso. -/
theorem syncScaffold_postcondition (sp : String) (s s' : RepoState)
    (_hrb : rebaseNoConflict s)
    (_hpop : popNoConflict s.head (stepRestore sp s).work (rebasedTree s))
    (hrun : syncScaffoldRun sp s = some s') :
    (∀ f, underStrategy sp f = false → s'.work f = s.upstream f) ∧
    s'.headDescendsUpstream = true ∧
    (∀ f, underStrategy sp f = true →
        (s.head f ≠ s.base f ∨ s.upstream f = s.base f ∨ s.work f ≠ s.head f) →
        s'.work f = s.work f) ∧
    s'.stash = s.stash := by
  have hR : syncScaffoldRun sp s = some
      { base := s.upstream, head := rebasedTree s, upstream := s.upstream,
        work := popMerged s.head (stepRestore sp s).work (rebasedTree s),
        stash := s.stash, headDescendsUpstream := true } := rfl
  have hs' := Option.some.inj (hR.symm.trans hrun)
  subst hs'
  refine ⟨?_, rfl, ?_, rfl⟩
  · intro f hf
    have hw1 : (stepRestore sp s).work f = s.upstream f := by
      simp [stepRestore, hf]
    show popMerged s.head (stepRestore sp s).work (rebasedTree s) f = s.upstream f
    simp only [popMerged, rebasedTree]
    rw [hw1]
    by_cases h : s.upstream f = s.head f
    · rw [if_pos h]
      by_cases hb : s.head f = s.base f
      · rw [if_pos hb]
      · rw [if_neg hb]
        exact h.symm
    · rw [if_neg h]
  · intro f hf hcase
    have hw1 : (stepRestore sp s).work f = s.work f := by
      simp [stepRestore, hf]
    show popMerged s.head (stepRestore sp s).work (rebasedTree s) f = s.work f
    simp only [popMerged, rebasedTree]
    rw [hw1]
    by_cases h : s.work f = s.head f
    · rw [if_pos h]
      rcases hcase with hb | hb | hb
      · rw [if_neg hb]
        exact h.symm
      · by_cases hb2 : s.head f = s.base f
        · rw [if_pos hb2]
          exact hb.trans (hb2.symm.trans h.symm)
        · rw [if_neg hb2]
          exact h.symm
      · exact absurd h hb
    · rw [if_neg h]

/-- Working tree of the witness repository: the user has an uncommitted
edit to the strategy file. -/
def witWorkTree : Tree := fun f => if f = cexProtectedFile then "mybot" else "old"

/-- Template tip of the witness repository: the template advanced only
non-protected files and left the strategy skeleton at the merge base. -/
def witUpstreamTree : Tree := fun f => if f = cexProtectedFile then "skeleton" else "new"

/-- Witness repository: committed state at the merge base, one uncommitted
strategy edit, template ahead on non-protected files only. -/
def witState : RepoState :=
  ⟨cexLocalTree, cexLocalTree, witUpstreamTree, witWorkTree, [], false⟩

/-- The state a successful sync of `witState` ends in. -/
def witFinal : RepoState :=
  { base := witState.upstream, head := rebasedTree witState,
    upstream := witState.upstream,
    work := popMerged witState.head
      (stepRestore (strategy_path cfgRust) witState).work (rebasedTree witState),
    stash := [], headDescendsUpstream := true }

/-- The unshelve step of the witness run is conflict-free. -/
theorem witState_popNoConflict :
    popNoConflict witState.head
      (stepRestore (strategy_path cfgRust) witState).work (rebasedTree witState) := by
  intro f
  cases h : underStrategy (strategy_path cfgRust) f with
  | false =>
      right; right
      simp [stepRestore, h, rebasedTree, witState]
  | true =>
      by_cases hf : f = cexProtectedFile
      · subst hf
        right; left
        simp [rebasedTree, witState, witUpstreamTree, cexLocalTree, cexProtectedFile]
      · left
        simp [stepRestore, h, witState, witWorkTree, cexLocalTree, hf]

/-- Witness for C1 amended: on the witness repository the sync succeeds,
the non-protected file takes the template's new content, the user-edited
protected file is byte-identical, and the head now descends from the
template tip. -/
theorem syncScaffold_postcondition_witness :
    underStrategy (strategy_path cfgRust) "README.md" = false
    ∧ underStrategy (strategy_path cfgRust) cexProtectedFile = true
    ∧ witFinal.work "README.md" = "new"
    ∧ witFinal.work cexProtectedFile = "mybot"
    ∧ witFinal.headDescendsUpstream = true := by
  have h := syncScaffold_postcondition (strategy_path cfgRust) witState witFinal
      (fun f => Or.inl rfl) witState_popNoConflict rfl
  refine ⟨by decide, by decide, ?_, ?_, h.2.1⟩
  · have hc := h.1 "README.md" (by decide)
    simpa [witState, witUpstreamTree, cexProtectedFile] using hc
  · have hc := h.2.2.1 cexProtectedFile (by decide) (Or.inr (Or.inl (by decide)))
    simpa [witState, witWorkTree, cexProtectedFile] using hc

end MMCli
